import Mathlib

/-!
Verification of the credential-file subsystem of py_pb_dbhandler
(src/pb_dbhandler/pgpass.py): permission gating, pgpass line parsing with
escape handling, and the ordered first-match-wins password lookup.

Strings are modelled as lists of characters. The Python string primitives
used by the source (str.strip, str.splitlines, str.replace, str.lower,
int(), and re.split on the pattern of a colon not preceded by a backslash
with maxsplit 4) are each given a faithful executable definition below.
The filesystem is modelled by an explicit state record carrying existence,
readability, the permission mode bits and the file content.
-/

namespace PgPass

/-- Whitespace characters stripped by Python str.strip(). -/
def isPySpace (c : Char) : Bool :=
  c = ' ' || c = '\t' || c = '\n' || c = '\r' || c = '\x0b' || c = '\x0c'

/-- Python str.strip(): remove leading and trailing whitespace. -/
def pyStrip (l : List Char) : List Char :=
  ((l.dropWhile isPySpace).reverse.dropWhile isPySpace).reverse

/-- Python str.lower(), ASCII case folding as used on hostnames, databases
and usernames in PgPassEntry.match. -/
def pyLower (l : List Char) : List Char :=
  l.map Char.toLower

/-- Helper for splitlines: accumulate the current line (reversed) while
scanning; a line break is one of LF, CR, or CRLF, as in Python 2
str.splitlines(). -/
def splitlinesAux : List Char → List Char → List (List Char)
  | [], acc => if acc.isEmpty then [] else [acc.reverse]
  | '\r' :: '\n' :: rest, acc => acc.reverse :: splitlinesAux rest []
  | '\r' :: rest, acc => acc.reverse :: splitlinesAux rest []
  | '\n' :: rest, acc => acc.reverse :: splitlinesAux rest []
  | c :: rest, acc => splitlinesAux rest (c :: acc)

/-- Python content.splitlines() as used in PgPassFile.entries. -/
def splitlines (content : List Char) : List (List Char) :=
  splitlinesAux content []

/-- Python s.replace(ab, c) for a two-character pattern ab replaced by the
single character c, scanning left to right without overlap; used for the
unescaping replace calls in PgPassFile.entries. -/
def replace2 (a b c : Char) : List Char → List Char
  | [] => []
  | [x] => [x]
  | x :: y :: rest =>
    if x = a ∧ y = b then c :: replace2 a b c rest
    else x :: replace2 a b c (y :: rest)

/-- Field unescaping in PgPassFile.entries: first every double backslash
becomes a single backslash, then every backslash-colon becomes a colon. -/
def unescape (l : List Char) : List Char :=
  replace2 '\\' ':' ':' (replace2 '\\' '\\' '\\' l)

/-- Digit string to number, for int(). -/
def digitsToNat (l : List Char) : Nat :=
  l.foldl (fun acc c => 10 * acc + (c.toNat - 48)) 0

/-- Python 2 int(s) on a string: optional surrounding whitespace, an
optional single sign, then one or more decimal digits; anything else
raises ValueError, modelled as none. -/
def parseInt (s : List Char) : Option Int :=
  match pyStrip s with
  | '-' :: ds =>
    if ds ≠ [] ∧ ds.all Char.isDigit then some (-(digitsToNat ds : Int)) else none
  | '+' :: ds =>
    if ds ≠ [] ∧ ds.all Char.isDigit then some (digitsToNat ds : Int) else none
  | ds =>
    if ds ≠ [] ∧ ds.all Char.isDigit then some (digitsToNat ds : Int) else none

/-- One valid line of a .pgpass file (class PgPassEntry): none in one of
the first four fields is the wildcard produced by a literal asterisk. -/
structure PgPassEntry where
  hostname : Option (List Char)
  port : Option Int
  database : Option (List Char)
  username : Option (List Char)
  password : List Char
deriving DecidableEq

/-- PgPassEntry.match: each stored field that is not None must coincide
with the query value, hostname, database and username case-insensitively
via lower(), the port by exact integer equality; otherwise the method
returns False early. -/
def PgPassEntry.matches (e : PgPassEntry) (hostname : List Char) (port : Int)
    (database : List Char) (username : List Char) : Bool :=
  (match e.hostname with
   | none => true
   | some h => pyLower h == pyLower hostname) &&
  (match e.port with
   | none => true
   | some p => p == port) &&
  (match e.database with
   | none => true
   | some d => pyLower d == pyLower database) &&
  (match e.username with
   | none => true
   | some u => pyLower u == pyLower username)

/-- Helper for re.split on the pattern of a colon not preceded by a
backslash, with a maxsplit bound: prev is the character just before the
current position (the lookbehind window), n the number of splits still
allowed, acc the current field reversed. -/
def splitFieldsAux : List Char → Nat → Option Char → List Char → List (List Char)
  | [], _, _, acc => [acc.reverse]
  | c :: rest, n, prev, acc =>
    if c = ':' ∧ prev ≠ some '\\' ∧ n ≠ 0 then
      acc.reverse :: splitFieldsAux rest (n - 1) (some ':') []
    else
      splitFieldsAux rest n (some c) (c :: acc)

/-- The field split of PgPassFile.entries: re.split of the line at every
unescaped colon, at most maxsplit splits, remaining text folded into the
last field. -/
def reSplit (l : List Char) (maxsplit : Nat) : List (List Char) :=
  splitFieldsAux l maxsplit none []

/-- Field resolution of PgPassFile.entries once a line has produced
exactly five raw fields: a literal asterisk in one of the first four
fields is the wildcard, the port must satisfy int(), the other fields are
unescaped; the password is always unescaped and never a wildcard. -/
def parseFields (f0 f1 f2 f3 f4 : List Char) : Option PgPassEntry :=
  if f1 = ['*'] then
    some ⟨if f0 = ['*'] then none else some (unescape f0), none,
          if f2 = ['*'] then none else some (unescape f2),
          if f3 = ['*'] then none else some (unescape f3), unescape f4⟩
  else
    match parseInt f1 with
    | none => none
    | some n =>
      some ⟨if f0 = ['*'] then none else some (unescape f0), some n,
            if f2 = ['*'] then none else some (unescape f2),
            if f3 = ['*'] then none else some (unescape f3), unescape f4⟩

/-- The loop body of PgPassFile.entries for a single raw line: strip it,
skip blank lines and comment lines starting with a hash, split at
unescaped colons with maxsplit 4, skip the line unless exactly five
fields result, then resolve the fields; none models every continue. -/
def parseLine (rawLine : List Char) : Option PgPassEntry :=
  let line := pyStrip rawLine
  if line = [] then none
  else if line.head? = some '#' then none
  else
    match reSplit line 4 with
    | [f0, f1, f2, f3, f4] => parseFields f0 f1 f2 f3 f4
    | _ => none

/-- The parsing loop of PgPassFile.entries over a whole file content:
each line in order contributes its entry if it has one. -/
def parseEntries (content : List Char) : List PgPassEntry :=
  (splitlines content).filterMap parseLine

/-- Errors raised by the subsystem: PgPassFileNotExistsError and
PgPassFileNotReadableError. -/
inductive PgPassError where
  | notExists
  | notReadable
deriving DecidableEq

/-- The state of the credential file as the operating system presents it:
whether the path exists, whether the process may read it, its permission
mode bits, and its text content. -/
structure FileState where
  pathExists : Bool
  readable : Bool
  mode : Nat
  content : List Char

/-- The existence check of PgPassFile.__init__: constructing the handle
raises PgPassFileNotExistsError when the path does not exist. -/
def PgPassFile.init (pathExists : Bool) : Except PgPassError Unit :=
  if pathExists = false then Except.error PgPassError.notExists
  else Except.ok ()

/-- PgPassFile.read: re-validate existence and readability, then inspect
the mode; if group or other bits are set and force is not, return the
empty string after a warning, otherwise return the file content. -/
def PgPassFile.read (st : FileState) (force : Bool) : Except PgPassError (List Char) :=
  if st.pathExists = false then Except.error PgPassError.notExists
  else if st.readable = false then Except.error PgPassError.notReadable
  else
    let group_mode := Nat.land st.mode 56
    let other_mode := Nat.land st.mode 7
    if group_mode ≠ 0 ∨ other_mode ≠ 0 then
      if force then Except.ok st.content else Except.ok []
    else Except.ok st.content

/-- PgPassFile.entries: read the content, return the empty list on empty
content, otherwise parse every line in order. -/
def PgPassFile.entries (st : FileState) (force : Bool) :
    Except PgPassError (List PgPassEntry) :=
  match PgPassFile.read st force with
  | Except.error e => Except.error e
  | Except.ok content =>
    if content = [] then Except.ok [] else Except.ok (parseEntries content)

/-- The search loop of PgPassFile.get_passwd: the first entry in order
that matches supplies the password and the loop breaks; otherwise the
result stays None. -/
def findPasswd : List PgPassEntry → List Char → Int → List Char → List Char →
    Option (List Char)
  | [], _, _, _, _ => none
  | e :: rest, h, p, d, u =>
    if e.matches h p d u then some e.password else findPasswd rest h p d u

/-- PgPassFile.get_passwd: parse the entries and scan them in order for
the first match. -/
def PgPassFile.get_passwd (st : FileState) (force : Bool) (hostname : List Char)
    (port : Int) (database : List Char) (username : List Char) :
    Except PgPassError (Option (List Char)) :=
  match PgPassFile.entries st force with
  | Except.error e => Except.error e
  | Except.ok es => Except.ok (findPasswd es hostname port database username)

end PgPass

namespace PgPass

/-- The six-line credential file of the first-match-wins precedence
property, with owner-only permissions, existing and readable. -/
def fileC1 : FileState :=
  ⟨true, true, 384,
   ("app:5432:vdc:glassfish:passwd1\napp:5432:*:glassfish:passwd2\napp:5432:*:uhu:passwd3\napp:5432:*:*:passwd4\napp:5434:*:glassfish:passwd5\nlocalhost:5432:*:glassfish:passwd6\n").data⟩

/-- C1: on the six-line credential file, get_passwd returns passwd1 for
(app,5432,vdc,glassfish), passwd2 for (app,5432,bla,glassfish), passwd3
for (app,5432,vdc,uhu), passwd4 for (app,5432,bla,itsme), passwd5 for
(app,5434,bla,glassfish), none for (app,5434,bla,itsme), passwd6 for
(localhost,5432,bla,glassfish) and none for (somewhere,5432,bla,glassfish):
the first matching entry in file order supplies the password. -/
theorem C1_first_match_wins :
    PgPassFile.get_passwd fileC1 false ("app").data 5432 ("vdc").data ("glassfish").data =
      Except.ok (some (("passwd1").data)) ∧
    PgPassFile.get_passwd fileC1 false ("app").data 5432 ("bla").data ("glassfish").data =
      Except.ok (some (("passwd2").data)) ∧
    PgPassFile.get_passwd fileC1 false ("app").data 5432 ("vdc").data ("uhu").data =
      Except.ok (some (("passwd3").data)) ∧
    PgPassFile.get_passwd fileC1 false ("app").data 5432 ("bla").data ("itsme").data =
      Except.ok (some (("passwd4").data)) ∧
    PgPassFile.get_passwd fileC1 false ("app").data 5434 ("bla").data ("glassfish").data =
      Except.ok (some (("passwd5").data)) ∧
    PgPassFile.get_passwd fileC1 false ("app").data 5434 ("bla").data ("itsme").data =
      Except.ok none ∧
    PgPassFile.get_passwd fileC1 false ("localhost").data 5432 ("bla").data ("glassfish").data =
      Except.ok (some (("passwd6").data)) ∧
    PgPassFile.get_passwd fileC1 false ("somewhere").data 5432 ("bla").data ("glassfish").data =
      Except.ok none :=
  ⟨rfl, rfl, rfl, rfl, rfl, rfl, rfl, rfl⟩

/-- C5: the escaped line parses to hostname local backslash host, port
5432, wildcard database, username glass colon fish and password
ov:La:nel3::oh, exhibiting the double-backslash-first unescaping order
and the folding of remaining colons into the password field. -/
theorem C5_roundtrip_escaping :
    parseLine (("local\\host:5432:*:glass\\:fish:ov\\:La\\:nel3\\:\\:oh").data) =
      some ⟨some (("local\\host").data), some 5432, none,
            some (("glass:fish").data), ("ov:La:nel3::oh").data⟩ :=
  rfl

/-- C3 counterexample: a line whose port field is the integer literal
minus one does produce an entry, with port minus one, although the claim
says a non-positive port field yields no entry. -/
theorem C3_counterexample_negative_port :
    parseLine (("app:-1:db:user:pw").data) =
      some ⟨some (("app").data), some (-1 : Int), some (("db").data),
            some (("user").data), ("pw").data⟩ :=
  rfl

/-- C3 amended: for a five-field line whose port field is not the
asterisk, the line is skipped exactly when the port field fails int()
(no positivity and no range requirement); any successfully parsed
integer, negative, zero or beyond 65535, is stored as the port. -/
theorem C3_port_parses_as_any_integer :
    ∀ f0 f1 f2 f3 f4 : List Char, f1 ≠ ['*'] →
      ((parseFields f0 f1 f2 f3 f4 = none ↔ parseInt f1 = none) ∧
       ∀ n : Int, parseInt f1 = some n →
         parseFields f0 f1 f2 f3 f4 =
           some ⟨if f0 = ['*'] then none else some (unescape f0), some n,
                 if f2 = ['*'] then none else some (unescape f2),
                 if f3 = ['*'] then none else some (unescape f3),
                 unescape f4⟩) := by
  intro f0 f1 f2 f3 f4 h1
  unfold parseFields
  simp only [h1, if_false]
  constructor
  · cases hp : parseInt f1 <;> simp
  · intro n hn
    simp [hn]

/-- C3 witness: instantiating the amended theorem at a concrete line with
port field minus one. -/
theorem C3_witness :
    parseFields ("x").data ("-1").data ("y").data ("z").data ("pw").data =
      some ⟨if ("x").data = ['*'] then none else some (unescape ("x").data),
            some (-1 : Int),
            if ("y").data = ['*'] then none else some (unescape ("y").data),
            if ("z").data = ['*'] then none else some (unescape ("z").data),
            unescape ("pw").data⟩ :=
  (C3_port_parses_as_any_integer ("x").data ("-1").data ("y").data ("z").data
    ("pw").data (by decide)).2 (-1) (by decide)

end PgPass

namespace PgPass

/-- Any line whose stripped form does not split into exactly five fields
produces no entry, whatever else it contains. -/
theorem parseLine_none_of_fieldcount_ne5
    (l : List Char) (hlen : (reSplit (pyStrip l) 4).length ≠ 5) :
    parseLine l = none := by
  unfold parseLine
  by_cases hb : pyStrip l = []
  · simp [hb]
  · by_cases hc : (pyStrip l).head? = some '#'
    · simp [hb, hc]
    · simp only [hb, hc, if_neg, if_false]
      rcases hf : reSplit (pyStrip l) 4 with
        _ | ⟨a, _ | ⟨b, _ | ⟨c, _ | ⟨d, _ | ⟨e, _ | ⟨f, rest⟩⟩⟩⟩⟩⟩ <;>
        simp_all

/-- C2: an entry matches a query exactly when every stored non-wildcard
field agrees with the query, hostname, database and username up to case
folding and the port by integer equality; and when no entry of a sequence
matches, the scan returns none rather than an error. -/
theorem C2_match_characterization :
    ∀ (e : PgPassEntry) (h : List Char) (p : Int) (d u : List Char),
      (e.matches h p d u = true ↔
        ((∀ x, e.hostname = some x → pyLower x = pyLower h) ∧
         (∀ x, e.port = some x → x = p) ∧
         (∀ x, e.database = some x → pyLower x = pyLower d) ∧
         (∀ x, e.username = some x → pyLower x = pyLower u))) ∧
      (∀ es : List PgPassEntry,
        (∀ e2 ∈ es, e2.matches h p d u = false) →
        findPasswd es h p d u = none) := by
  intro e h p d u
  constructor
  · rcases e with ⟨hn, pt, db, un, pw⟩
    cases hn <;> cases pt <;> cases db <;> cases un <;>
      simp [PgPassEntry.matches, and_assoc]
  · intro es
    induction es with
    | nil => intro _; rfl
    | cons e2 rest ih =>
      intro hall
      have h1 := hall e2 (by simp)
      have h2 := ih (fun e3 hm => hall e3 (by simp [hm]))
      simp [findPasswd, h1, h2]

/-- C2 witness: a single non-matching entry yields none at a concrete
query. -/
theorem C2_witness :
    findPasswd [⟨some (("a").data), none, none, none, ("pw").data⟩]
      ("b").data 1 [] [] = none :=
  (C2_match_characterization ⟨some (("a").data), none, none, none, ("pw").data⟩
    ("b").data 1 [] []).2
    [⟨some (("a").data), none, none, none, ("pw").data⟩] (by decide)

/-- C4: a non-blank, non-comment line splitting into other than five
fields yields no entry, and a file whose first line is malformed (three
fields) still yields the entry of the well-formed second line. -/
theorem C4_field_count_gate :
    (∀ l : List Char, (reSplit (pyStrip l) 4).length ≠ 5 → parseLine l = none) ∧
    PgPassFile.entries
      ⟨true, true, 384, ("localhost:5432:\napp:5432:vdc:glassfish:passwd1\n").data⟩
      false =
      Except.ok [⟨some (("app").data), some 5432, some (("vdc").data),
                  some (("glassfish").data), ("passwd1").data⟩] :=
  ⟨parseLine_none_of_fieldcount_ne5, rfl⟩

/-- C4 witness: the malformed three-field line of the claim yields no
entry. -/
theorem C4_witness :
    parseLine ("localhost:5432:").data = none :=
  C4_field_count_gate.1 (("localhost:5432:").data) (by decide)

end PgPass

namespace PgPass

/-- C6: the password field is unescaped but never a wildcard: any entry
produced with raw password field equal to the asterisk carries the
literal one-character asterisk password, and the all-asterisk line parses
to the all-wildcard entry whose lookup answers the asterisk password for
every query. -/
theorem C6_password_never_wildcard :
    (∀ f0 f1 f2 f3 : List Char, ∀ e : PgPassEntry,
       parseFields f0 f1 f2 f3 ['*'] = some e → e.password = ['*']) ∧
    parseLine ("*:*:*:*:*").data = some ⟨none, none, none, none, ['*']⟩ ∧
    (∀ h : List Char, ∀ p : Int, ∀ d u : List Char,
       findPasswd [⟨none, none, none, none, ['*']⟩] h p d u = some ['*']) := by
  refine ⟨?_, rfl, ?_⟩
  · intro f0 f1 f2 f3 e he
    unfold parseFields at he
    by_cases h1 : f1 = ['*']
    · rw [if_pos h1] at he
      injection he with h2
      rw [← h2]
      rfl
    · rw [if_neg h1] at he
      cases hp : parseInt f1 <;> rw [hp] at he
      · exact Option.noConfusion he
      · injection he with h2
        rw [← h2]
        rfl
  · intro h p d u
    simp [findPasswd, PgPassEntry.matches]

/-- C6 witness: the all-asterisk line at a concrete query. -/
theorem C6_witness :
    (⟨none, none, none, none, ['*']⟩ : PgPassEntry).password = ['*'] ∧
    findPasswd [⟨none, none, none, none, ['*']⟩]
      ("anyhost").data 42 ("anydb").data ("anyuser").data = some ['*'] :=
  ⟨C6_password_never_wildcard.1 ['*'] ['*'] ['*'] ['*']
      ⟨none, none, none, none, ['*']⟩ rfl,
   C6_password_never_wildcard.2.2 ("anyhost").data 42 ("anydb").data
      ("anyuser").data⟩

/-- C7: on an existing readable file whose mode grants group or other
permissions, entries with force false is the empty list and no error is
raised, while entries with force true parses the content normally. -/
theorem C7_permission_gate :
    ∀ st : FileState, st.pathExists = true → st.readable = true →
      (Nat.land st.mode 56 ≠ 0 ∨ Nat.land st.mode 7 ≠ 0) →
      PgPassFile.entries st false = Except.ok [] ∧
      PgPassFile.entries st true = Except.ok (parseEntries st.content) := by
  intro st hex hr hmode
  unfold PgPassFile.entries PgPassFile.read
  simp only [hex, hr, Bool.true_eq_false, if_false, if_neg]
  rw [if_pos hmode]
  simp only [if_true, if_pos rfl]
  constructor
  · rfl
  · by_cases hc : st.content = []
    · simp [hc, parseEntries, splitlines, splitlinesAux]
    · simp [hc]

/-- C7 witness: a group-readable file in mode 640 with one entry line. -/
theorem C7_witness :
    PgPassFile.entries ⟨true, true, 416, ("a:1:b:c:d").data⟩ false =
      Except.ok [] ∧
    PgPassFile.entries ⟨true, true, 416, ("a:1:b:c:d").data⟩ true =
      Except.ok (parseEntries ("a:1:b:c:d").data) :=
  C7_permission_gate ⟨true, true, 416, ("a:1:b:c:d").data⟩ rfl rfl (by decide)

/-- C8: constructing the handle fails with NotExists exactly when the
path does not exist; read re-validates and fails with NotExists exactly
when the path no longer exists, with NotReadable exactly when it exists
but is unreadable, never fails otherwise, and entries propagates exactly
the errors of read. -/
theorem C8_fatal_errors :
    ∀ (st : FileState) (force : Bool),
      (PgPassFile.init st.pathExists = Except.error PgPassError.notExists ↔
        st.pathExists = false) ∧
      (PgPassFile.read st force = Except.error PgPassError.notExists ↔
        st.pathExists = false) ∧
      (PgPassFile.read st force = Except.error PgPassError.notReadable ↔
        st.pathExists = true ∧ st.readable = false) ∧
      (st.pathExists = true → st.readable = true →
        ∀ e : PgPassError, PgPassFile.read st force ≠ Except.error e) ∧
      (∀ e : PgPassError, PgPassFile.entries st force = Except.error e ↔
        PgPassFile.read st force = Except.error e) ∧
      (∀ (e : PgPassError) (h d u : List Char) (p : Int),
        PgPassFile.get_passwd st force h p d u = Except.error e ↔
        PgPassFile.read st force = Except.error e) := by
  intro st force
  obtain ⟨ex, rd, mode, content⟩ := st
  cases ex
  · cases rd <;>
      simp [PgPassFile.init, PgPassFile.read, PgPassFile.entries,
        PgPassFile.get_passwd]
  · cases rd
    · simp [PgPassFile.init, PgPassFile.read, PgPassFile.entries,
        PgPassFile.get_passwd]
    · by_cases hm : ¬Nat.land mode 56 = 0 ∨ ¬Nat.land mode 7 = 0 <;>
        cases force <;>
        by_cases hc : content = [] <;>
        simp [PgPassFile.init, PgPassFile.read, PgPassFile.entries,
          PgPassFile.get_passwd, hm, hc]

/-- C8 witness: an existing readable file never reports a fatal error. -/
theorem C8_witness :
    PgPassFile.read ⟨true, true, 384, ("x").data⟩ false ≠
      Except.error PgPassError.notExists :=
  (C8_fatal_errors ⟨true, true, 384, ("x").data⟩ false).2.2.2.1 rfl rfl
    PgPassError.notExists

/-- C9: entries is a function of the file state and the force flag alone,
the parsed sequence is the in-order filterMap of the parsed lines, and a
two-line content whose lines both parse keeps both entries in file order,
without deduplication even when the lines are identical. -/
theorem C9_deterministic_ordered :
    ∀ (st : FileState) (force : Bool),
      PgPassFile.entries st force = PgPassFile.entries st force ∧
      parseEntries st.content = (splitlines st.content).filterMap parseLine ∧
      (∀ l1 l2 : List Char, ∀ e1 e2 : PgPassEntry,
        splitlines st.content = [l1, l2] →
        parseLine l1 = some e1 → parseLine l2 = some e2 →
        parseEntries st.content = [e1, e2]) := by
  intro st force
  refine ⟨rfl, rfl, ?_⟩
  intro l1 l2 e1 e2 hs h1 h2
  simp [parseEntries, hs, h1, h2]

/-- C9 witness: a file of two identical lines yields the same entry
twice, in order. -/
theorem C9_witness :
    parseEntries ("a:1:b:c:d\na:1:b:c:d").data =
      [⟨some (("a").data), some 1, some (("b").data), some (("c").data),
        ("d").data⟩,
       ⟨some (("a").data), some 1, some (("b").data), some (("c").data),
        ("d").data⟩] :=
  (C9_deterministic_ordered ⟨true, true, 384, ("a:1:b:c:d\na:1:b:c:d").data⟩
      false).2.2 ("a:1:b:c:d").data ("a:1:b:c:d").data
    ⟨some (("a").data), some 1, some (("b").data), some (("c").data),
     ("d").data⟩
    ⟨some (("a").data), some 1, some (("b").data), some (("c").data),
     ("d").data⟩ rfl rfl rfl

/-- C10: an empty first field is a concrete empty hostname, not a
wildcard: the line with empty first field parses to an entry with empty
string hostname, that entry matches only queries whose host is the empty
string, and an empty port field makes the whole line skip because the
empty string fails int(). -/
theorem C10_empty_field_concrete :
    parseLine (":5432:db:user:pw").data =
      some ⟨some [], some 5432, some (("db").data), some (("user").data),
            ("pw").data⟩ ∧
    (∀ h : List Char, ∀ p : Int, ∀ d u : List Char,
      (⟨some [], some 5432, some (("db").data), some (("user").data),
        ("pw").data⟩ : PgPassEntry).matches h p d u = true → h = []) ∧
    parseLine ("host::db:user:pw").data = none := by
  refine ⟨rfl, ?_, rfl⟩
  intro h p d u hm
  simp [PgPassEntry.matches, pyLower] at hm
  exact hm.1.1.1

/-- C10 witness: the empty-hostname entry does match the empty-host
query. -/
theorem C10_witness : (([] : List Char)) = [] :=
  C10_empty_field_concrete.2.1 [] 5432 ("db").data ("user").data (by decide)

end PgPass
